import Mathlib

/-!
Shallow embedding of the UAE property-search repository
(`main.py`, `recommend_property_by_user.py`) and proofs of the
specification's claims about it.

Numeric fields (`cost`, `expected_roi`) are Python floats in the source;
they are embedded as exact rationals (`ℚ`), since every comparison the
code performs is an order comparison between values parsed from decimal
literals, independent of binary rounding on the data at hand.
Python's `str.lower()` is embedded as a character-wise lowercase map.
-/

namespace UAEFangzi

/-- Embedding of Python's `str.lower()`: character-wise lowercasing. -/
def pyLower (s : String) : String :=
  String.mk (s.data.map Char.toLower)

/-- The `Property` pydantic model of `main.py`: one real-estate listing. -/
structure Property where
  id : Int
  name : String
  area : String
  cost : ℚ
  expected_roi : ℚ
  description : Option String := none
  address : Option String := none
deriving DecidableEq, Repr

/-- The embedded reference dataset `property_data` of `main.py`, already in
row form, as `ALL_PROPERTIES` is after the `DataFrame`-to-model conversion. -/
def ALL_PROPERTIES : List Property :=
  [ { id := 1, name := "Luxury Apartment - Business Bay", area := "Business Bay",
      cost := 1500000.00, expected_roi := 0.07,
      description := some "Spacious 2-bedroom apartment with canal views.",
      address := some "Tower A, Business Bay" },
    { id := 2, name := "Penthouse Suite - Downtown Dubai", area := "Downtown Dubai",
      cost := 5000000.00, expected_roi := 0.04,
      description := some "Exclusive penthouse with panoramic city views.",
      address := some "Burj Views, Downtown Dubai" },
    { id := 3, name := "Modern Villa - Arabian Ranches", area := "Arabian Ranches",
      cost := 3000000.00, expected_roi := 0.06,
      description := some "Family villa with private garden and pool access.",
      address := some "Al Reem 1, Arabian Ranches" },
    { id := 4, name := "Studio Flat - Business Bay", area := "Business Bay",
      cost := 800000.00, expected_roi := 0.08,
      description := some "Compact studio ideal for young professionals.",
      address := some "The Executive Towers, Business Bay" },
    { id := 5, name := "Commercial Office - JLT", area := "JLT",
      cost := 2000000.00, expected_roi := 0.075,
      description := some "Grade A office space near metro station.",
      address := some "Cluster D, Jumeirah Lakes Towers" },
    { id := 6, name := "Premium Apartment - Business Bay", area := "Business Bay",
      cost := 1200000.00, expected_roi := 0.065,
      description := some "1-bedroom apartment with high rental yield potential.",
      address := some "Bay Square, Business Bay" },
    { id := 7, name := "Luxury Condo - Palm Jumeirah", area := "Palm Jumeirah",
      cost := 7000000.00, expected_roi := 0.05,
      description := some "Waterfront condo with private beach access.",
      address := some "Shoreline Apartments, Palm Jumeirah" },
    { id := 8, name := "Townhouse - Business Bay", area := "Business Bay",
      cost := 2800000.00, expected_roi := 0.055,
      description := some "Spacious townhouse in a prime Business Bay location.",
      address := some "Marasi Drive, Business Bay" } ]

/-- The filtering body of `search_properties` in `main.py` (lines 114-143):
`normalized_area = area.lower() if area else None` (Python string truthiness
treats `""` as false), then one pass over the listings keeping those for
which the three conditions — each `True` when its parameter is absent — hold. -/
def search_properties (roi : Option ℚ) (area : Option String) (cost : Option ℚ)
    (all_properties : List Property) : List Property :=
  let normalized_area : Option String :=
    match area with
    | some a => if a = "" then none else some (pyLower a)
    | none => none
  all_properties.filter (fun prop =>
    (match roi with
     | none => true
     | some r => decide (prop.expected_roi ≥ r)) &&
    (match normalized_area with
     | none => true
     | some na => decide (pyLower prop.area = na)) &&
    (match cost with
     | none => true
     | some c => decide (prop.cost ≤ c)))

/-- A stored user preference of `recommend_property_by_user.py`:
the `area` / `max_cost` / `min_roi` triple, each field optional. -/
structure UserPref where
  area : Option String
  max_cost : Option ℚ
  min_roi : Option ℚ
deriving DecidableEq, Repr

/-- The `user_preferences` dictionary of `recommend_property_by_user.py`
(lines 8-16), as a lookup from user id. -/
def user_preferences (user_id : Int) : Option UserPref :=
  if user_id = 101 then some { area := some "Business Bay", max_cost := some 1600000.0, min_roi := some 0.07 }
  else if user_id = 102 then some { area := some "Downtown Dubai", max_cost := some 6000000.0, min_roi := some 0.04 }
  else if user_id = 103 then some { area := some "Arabian Ranches", max_cost := some 3500000.0, min_roi := some 0.05 }
  else if user_id = 104 then some { area := none, max_cost := some 1000000.0, min_roi := some 0.07 }
  else if user_id = 105 then some { area := some "JLT", max_cost := some 2500000.0, min_roi := some 0.07 }
  else if user_id = 106 then some { area := some "Business Bay", max_cost := none, min_roi := some 0.06 }
  else if user_id = 107 then some { area := none, max_cost := none, min_roi := none }
  else none

/-- The filter chain of `recommend_properties` (lines 38-61): starting from a
copy of all rows, apply the area filter when `user_pref.get("area")` is truthy
(so `None` and `""` both skip it), then the cost filter when `max_cost` is not
`None`, then the ROI filter when `min_roi` is not `None`. -/
def apply_preference (user_pref : UserPref) (properties_df : List Property) : List Property :=
  let recommended_df := properties_df
  let recommended_df :=
    match user_pref.area with
    | some a =>
        if a = "" then recommended_df
        else recommended_df.filter (fun row => decide (pyLower row.area = pyLower a))
    | none => recommended_df
  let recommended_df :=
    match user_pref.max_cost with
    | some c => recommended_df.filter (fun row => decide (row.cost ≤ c))
    | none => recommended_df
  let recommended_df :=
    match user_pref.min_roi with
    | some r => recommended_df.filter (fun row => decide (row.expected_roi ≥ r))
    | none => recommended_df
  recommended_df

/-- `recommend_properties` of `recommend_property_by_user.py` (lines 18-61):
an unknown user id yields an empty frame (after printing a diagnostic, an
effect outside the pure result); otherwise the preference's filter chain runs. -/
def recommend_properties (user_id : Int) (properties_df : List Property) : List Property :=
  match user_preferences user_id with
  | none => []
  | some user_pref => apply_preference user_pref properties_df

/-- The constraint FastAPI enforces on the `roi` query parameter, declared in
`main.py` line 97 as `Query(None, ge=0.0)`: a provided value below 0 is invalid. -/
def roi_param_invalid (roi : Option ℚ) : Bool :=
  match roi with
  | some r => decide (r < 0)
  | none => false

/-- The constraint FastAPI enforces on the `cost` query parameter, declared in
`main.py` line 99 as `Query(None, gt=0.0)`: a provided non-positive value is invalid. -/
def cost_param_invalid (cost : Option ℚ) : Bool :=
  match cost with
  | some c => decide (c ≤ 0)
  | none => false

/-- The `GET /properties/search` endpoint as deployed: FastAPI rejects the
request with status 422 when a declared parameter constraint is violated,
and otherwise runs the `search_properties` body over `ALL_PROPERTIES`. -/
def search_endpoint (roi : Option ℚ) (area : Option String) (cost : Option ℚ) :
    Except Nat (List Property) :=
  if roi_param_invalid roi || cost_param_invalid cost then Except.error 422
  else Except.ok (search_properties roi area cost ALL_PROPERTIES)

/-- A loaded tabular frame: column names plus rows of raw string cells.
`pd.read_csv` infers dtypes but never fails on a cell like a non-numeric
cost, so cells stay untyped strings in this model. -/
structure CsvFrame where
  columns : List String
  rows : List (List String)
deriving DecidableEq, Repr

/-- Comma-splitting of one CSV line (no quoting occurs in this data). -/
def splitCommaAux : List Char → List Char → List (List Char)
  | [], acc => [acc.reverse]
  | c :: rest, acc =>
      if c = ',' then acc.reverse :: splitCommaAux rest []
      else splitCommaAux rest (c :: acc)

/-- Split a CSV line into its cells. -/
def split_line (s : String) : List String :=
  (splitCommaAux s.data []).map String.mk

/-- `pd.read_csv` modelled on an in-memory list of lines: the first line is
the header naming the columns, the later lines are rows of string cells. -/
def read_csv (lines : List String) : CsvFrame :=
  match lines with
  | [] => { columns := [], rows := [] }
  | header :: body => { columns := split_line header, rows := body.map split_line }

/-- The column set `main` requires of the loaded frame
(`recommend_property_by_user.py` line 83). -/
def expected_columns : List String := ["area", "cost", "expected_roi"]

/-- The load-and-validate prefix of `main` (`recommend_property_by_user.py`
lines 73-85): read the CSV, then raise `ValueError` unless every expected
column is present; no other validation of the frame happens at load. -/
def batch_load (lines : List String) : Except String CsvFrame :=
  let properties_df := read_csv lines
  if expected_columns.all (fun c => properties_df.columns.contains c) then
    Except.ok properties_df
  else
    Except.error "CSV file must contain columns"

/-- The output-writing step of `main` (`recommend_property_by_user.py` lines
87-94): user 101 is the one processed user, and its per-user recommendations
file is written only when the recommendation frame is non-empty. -/
def main_output_files (properties_df : List Property) : List (Int × List Property) :=
  let recommendations_1 := recommend_properties 101 properties_df
  if recommendations_1.isEmpty then [] else [(101, recommendations_1)]

theorem pyLower_eq_empty_iff (s : String) : pyLower s = "" ↔ s = "" := by
  obtain ⟨data⟩ := s
  simp [pyLower, String.ext_iff]

/-- Claim C1: a listing is in the filter result iff all provided criteria hold,
each evaluated independently and combined with logical AND — `expected_roi ≥
min_roi` when min_roi is present, case-insensitive area equality when the area
criterion is present (a provided area is an actual area string, i.e. not `""`,
the case both paths treat as absent), and `cost ≤ max_cost` when max_cost is
present; an absent criterion is always true. Stated for both the endpoint
filter `search_properties` and the batch filter chain `apply_preference`. -/
theorem match_iff_all_criteria (roi cost : Option ℚ) (area : Option String)
    (pref : UserPref) (hA : area ≠ some "") (hP : pref.area ≠ some "")
    (p : Property) (l : List Property) :
    (p ∈ search_properties roi area cost l ↔
      p ∈ l ∧ (∀ r, roi = some r → p.expected_roi ≥ r) ∧
        (∀ a, area = some a → pyLower p.area = pyLower a) ∧
        (∀ c, cost = some c → p.cost ≤ c)) ∧
    (p ∈ apply_preference pref l ↔
      p ∈ l ∧ (∀ r, pref.min_roi = some r → p.expected_roi ≥ r) ∧
        (∀ a, pref.area = some a → pyLower p.area = pyLower a) ∧
        (∀ c, pref.max_cost = some c → p.cost ≤ c)) := by
  constructor
  · rcases area with _ | a
    · simp only [search_properties]
      rcases roi with _ | r <;> rcases cost with _ | c <;>
        simp [List.mem_filter]
    · have ha : a ≠ "" := by simpa using hA
      simp only [search_properties, if_neg ha]
      rcases roi with _ | r <;> rcases cost with _ | c <;>
        (simp [List.mem_filter]; try tauto)
  · obtain ⟨oa, mc, mr⟩ := pref
    rcases oa with _ | a
    · simp only [apply_preference]
      rcases mr with _ | r <;> rcases mc with _ | c <;>
        simp [List.mem_filter]
    · have ha : a ≠ "" := by simpa using hP
      simp only [apply_preference, if_neg ha]
      rcases mr with _ | r <;> rcases mc with _ | c <;>
        (simp [List.mem_filter]; try tauto)

/-- Concrete instantiation of `match_iff_all_criteria`: a Business Bay listing
with roi 1 and cost 1 passes the criteria (min_roi 0.07, area "Business Bay",
no max_cost) and is therefore in the filter result. -/
theorem match_iff_all_criteria_witness :
    (⟨1, "A", "Business Bay", 1, 1, none, none⟩ : Property) ∈
      search_properties (some 0.07) (some "Business Bay") none
        [⟨1, "A", "Business Bay", 1, 1, none, none⟩] := by
  have h := match_iff_all_criteria (some 0.07) none (some "Business Bay")
    ⟨some "Business Bay", none, none⟩ (by decide) (by decide)
    ⟨1, "A", "Business Bay", 1, 1, none, none⟩
    [⟨1, "A", "Business Bay", 1, 1, none, none⟩]
  refine h.1.mpr ⟨List.mem_singleton_self _, ?_, ?_, ?_⟩
  · intro r hr
    cases hr
    norm_num
  · intro a ha
    cases ha
    rfl
  · intro c hc
    cases hc

/-- Claim C2: for every input listing list and criteria, the filter result is a
subsequence of the input — never longer, never containing a listing absent from
the input, never containing more copies of a listing than the input, and
surviving listings keep their original relative order. (The embedding is pure,
so the input list itself is never mutated.) -/
theorem filter_result_is_subsequence (roi : Option ℚ) (area : Option String)
    (cost : Option ℚ) (l : List Property) :
    (search_properties roi area cost l).Sublist l ∧
    (search_properties roi area cost l).length ≤ l.length ∧
    (∀ p, p ∈ search_properties roi area cost l → p ∈ l) ∧
    (∀ p, (search_properties roi area cost l).count p ≤ l.count p) := by
  have h : (search_properties roi area cost l).Sublist l := List.filter_sublist l
  exact ⟨h, h.length_le, fun p hp => h.subset hp, fun p => h.count_le p⟩

/-- Claim C3: with every criterion absent the filter returns its input
unchanged, and `recommend_properties 107` (the stored all-None preference)
returns all listings in order. -/
theorem no_criteria_returns_input (l : List Property) :
    search_properties none none none l = l ∧ recommend_properties 107 l = l := by
  constructor
  · simp [search_properties]
  · rfl

/-- Claim C4: changing only the letter case of the area criterion (two strings
with the same character-wise lowercasing) yields an identical filter result, in
both the endpoint filter and the batch filter chain. -/
theorem area_case_insensitive (roi cost : Option ℚ) (l : List Property) (s t : String)
    (h : pyLower s = pyLower t) :
    search_properties roi (some s) cost l = search_properties roi (some t) cost l ∧
    ∀ mc mr : Option ℚ,
      apply_preference ⟨some s, mc, mr⟩ l = apply_preference ⟨some t, mc, mr⟩ l := by
  by_cases hs : s = ""
  · have ht : t = "" := by
      rw [← pyLower_eq_empty_iff, ← h, pyLower_eq_empty_iff]
      exact hs
    subst hs
    rw [ht]
    exact ⟨rfl, fun _ _ => rfl⟩
  · have ht : t ≠ "" := by
      intro ht
      exact hs (by rw [← pyLower_eq_empty_iff, h, pyLower_eq_empty_iff, ht])
    constructor
    · simp only [search_properties, if_neg hs, if_neg ht, h]
    · intro mc mr
      simp only [apply_preference, if_neg hs, if_neg ht, h]

/-- Concrete instantiation of `area_case_insensitive`: the spec's example —
searching the reference dataset with `area="business bay"` and
`area="Business Bay"` gives identical results. -/
theorem area_case_insensitive_witness :
    search_properties (some 0.07) (some "business bay") none ALL_PROPERTIES =
      search_properties (some 0.07) (some "Business Bay") none ALL_PROPERTIES :=
  (area_case_insensitive (some 0.07) none ALL_PROPERTIES "business bay" "Business Bay" rfl).1

/-- Claim C5: for every user id with no stored preference, the recommendation
returns an empty sequence (the source also prints a diagnostic, an effect
outside the pure result, and raises nothing — the embedding is total). -/
theorem unknown_user_empty_result (user_id : Int) (l : List Property)
    (h : user_preferences user_id = none) :
    recommend_properties user_id l = [] := by
  simp [recommend_properties, h]

/-- Concrete instantiation of `unknown_user_empty_result`: user 999 has no
stored preference and gets an empty recommendation over the reference data. -/
theorem unknown_user_empty_result_witness :
    user_preferences 999 = none ∧ recommend_properties 999 ALL_PROPERTIES = [] :=
  ⟨rfl, unknown_user_empty_result 999 ALL_PROPERTIES rfl⟩

/-- Claim C6: the query endpoint answers 422 iff a provided roi parameter is
negative or a provided cost parameter is non-positive; any request whose
provided parameters satisfy roi ≥ 0 and cost > 0 is answered with the filtered
listing array. -/
theorem endpoint_validation (roi : Option ℚ) (area : Option String) (cost : Option ℚ) :
    (search_endpoint roi area cost = Except.error 422 ↔
      (∃ r, roi = some r ∧ r < 0) ∨ (∃ c, cost = some c ∧ c ≤ 0)) ∧
    ((∀ r, roi = some r → 0 ≤ r) → (∀ c, cost = some c → 0 < c) →
      search_endpoint roi area cost =
        Except.ok (search_properties roi area cost ALL_PROPERTIES)) := by
  rcases roi with _ | r <;> rcases cost with _ | c
  · simp [search_endpoint, roi_param_invalid, cost_param_invalid]
  · by_cases hc : c ≤ 0 <;>
      simp [search_endpoint, roi_param_invalid, cost_param_invalid, hc]
  · by_cases hr : r < 0 <;>
      simp [search_endpoint, roi_param_invalid, cost_param_invalid, hr]
  · by_cases hr : r < 0 <;> by_cases hc : c ≤ 0 <;>
      simp [search_endpoint, roi_param_invalid, cost_param_invalid, hr, hc]

/-- Concrete instantiation of `endpoint_validation`: roi 0.07 with no cost
parameter satisfies the constraints, so the request is answered with the
filtered listings. -/
theorem endpoint_validation_witness :
    search_endpoint (some 0.07) (some "Business Bay") none =
      Except.ok (search_properties (some 0.07) (some "Business Bay") none ALL_PROPERTIES) := by
  refine (endpoint_validation (some 0.07) (some "Business Bay") none).2 ?_ ?_
  · intro r hr
    cases hr
    norm_num
  · intro c hc
    cases hc

/-- Claim C7, counterexample to the claim as stated: a batch-path source whose
columns are exactly `area, cost, expected_roi` — so `id` and `name` are missing
— and whose cost cell is the non-numeric string "not numeric" loads without any
error, where the claim demands a `SchemaError` (missing id/name in the batch
path) and a `ParseError` (unconvertible cell): the batch load checks only the
three-column subset and never type-checks cells. -/
theorem batch_load_no_id_name_ok :
    batch_load ["area,cost,expected_roi", "Business Bay,not numeric,0.07"] =
      Except.ok { columns := ["area", "cost", "expected_roi"],
                  rows := [["Business Bay", "not numeric", "0.07"]] } := by
  rfl

/-- Claim C7 as amended: the batch-path load fails with its schema error
(`ValueError`) exactly when one of the columns `area`, `cost`, `expected_roi`
is missing; a source containing those three columns loads without error — `id`
and `name` are not required in the batch path and cells are not type-checked
at load. -/
theorem batch_load_schema_check (lines : List String) :
    (batch_load lines = Except.ok (read_csv lines) ↔
      ∀ c ∈ expected_columns, c ∈ (read_csv lines).columns) ∧
    ((∃ c ∈ expected_columns, c ∉ (read_csv lines).columns) →
      batch_load lines = Except.error "CSV file must contain columns") := by
  unfold batch_load
  by_cases h : expected_columns.all (fun c => (read_csv lines).columns.contains c) = true
  · rw [if_pos h]
    rw [List.all_eq_true] at h
    constructor
    · simp only [true_iff, Except.ok.injEq]
      intro c hc
      have := h c hc
      simpa using this
    · rintro ⟨c, hc, hnot⟩
      exact absurd (by simpa using h c hc) hnot
  · rw [if_neg h]
    rw [List.all_eq_true] at h
    push_neg at h
    obtain ⟨c, hc, hcon⟩ := h
    constructor
    · constructor
      · intro hfalse
        cases hfalse
      · intro hall
        exact absurd (by simpa using hall c hc) (by simpa using hcon)
    · intro _
      rfl

/-- Concrete instantiation of `batch_load_schema_check`: a source with only
`id` and `name` columns is missing `area`, so the batch load raises its
schema error. -/
theorem batch_load_schema_check_witness :
    batch_load ["id,name", "1,x"] = Except.error "CSV file must contain columns" :=
  (batch_load_schema_check ["id,name", "1,x"]).2 ⟨"area", by decide, by decide⟩

/-- Claim C8: over the embedded reference dataset of 8 listings, filtering with
min_roi 0.07 and area "Business Bay" (max_cost absent) returns exactly the
listings with ids 1 and 4, in that order. -/
theorem reference_query_ids :
    (search_properties (some 0.07) (some "Business Bay") none
      ALL_PROPERTIES).map (fun p => p.id) = [1, 4] := by
  norm_num [search_properties, ALL_PROPERTIES, pyLower, List.filter]
  rfl

/-- Claim C9: the batch driver writes the per-user output file iff the
recommendation result for its processed user (101) is non-empty; when nothing
matches, no file is written. -/
theorem output_written_iff_nonempty (properties_df : List Property) :
    (main_output_files properties_df =
        [(101, recommend_properties 101 properties_df)] ↔
      recommend_properties 101 properties_df ≠ []) ∧
    (main_output_files properties_df = [] ↔
      recommend_properties 101 properties_df = []) := by
  unfold main_output_files
  by_cases h : recommend_properties 101 properties_df = [] <;> simp [h]

/-- Claim C10: in both the endpoint and the batch filter, an area criterion
equal to the empty string applies no area constraint — the result equals the
result with the area criterion absent. -/
theorem empty_area_is_absent (roi cost : Option ℚ) (l : List Property) :
    search_properties roi (some "") cost l = search_properties roi none cost l ∧
    ∀ mc mr : Option ℚ,
      apply_preference ⟨some "", mc, mr⟩ l = apply_preference ⟨none, mc, mr⟩ l :=
  ⟨rfl, fun _ _ => rfl⟩

end UAEFangzi
